import Mathlib

/-!
Shallow embedding of the ZKFile core SDK's encrypted-container codec
(`src/services/encryption.ts`, the `EncryptionService` class) and of the
client-side option validation (`src/client.ts`, the `ZKFileClient` class).

Bytes are modelled as `List Nat` (each entry a byte value).  The external
collaborators that the TypeScript code consumes — the WebCrypto PBKDF2 key
derivation, the AES-GCM seal/open primitives, and the secure random source
`crypto.getRandomValues` — are not part of this repository; they are passed
to the embedded functions as explicit function arguments, exactly at the
call shapes the source uses (PBKDF2 receives password, salt, iteration
count, hash name and key length; the cipher receives key, iv, tag length
and data; the random source is an infinite byte stream read at a cursor).
All error classes in `src/errors/index.ts` share the shape
`(name, message, code)`; they are modelled by one structure `ZKFileError`.
-/

namespace ZKFile

/-- A byte sequence (`Uint8Array` in the source). -/
abbrev Bytes := List Nat

/-- An opaque symmetric key (`CryptoKey` in the source); its representation
as bytes is irrelevant to the codec, which only passes it between the KDF
and the cipher. -/
abbrev Key := List Nat

/-- Common shape of every error class in `src/errors/index.ts`:
a `name` identifying the class, a human-readable `message`, and a `code`. -/
structure ZKFileError where
  name : String
  message : String
  code : String
deriving DecidableEq, Repr

/-- An error of class `EncryptionError` (name is always "EncryptionError"). -/
def encryptionError (message code : String) : ZKFileError :=
  { name := "EncryptionError", message := message, code := code }

/-- An error of class `ValidationError` (name is always "ValidationError"). -/
def validationError (message code : String) : ZKFileError :=
  { name := "ValidationError", message := message, code := code }

/-- The `EncryptedFile` record returned by `encryptFile`:
iv (nonce), salt, and ciphertext-plus-tag. -/
structure EncryptedFile where
  iv : Bytes
  salt : Bytes
  ciphertext : Bytes
deriving DecidableEq, Repr

namespace EncryptionService

/-- Constant `EncryptionService.KEY_LENGTH = 256` (bits). -/
def KEY_LENGTH : Nat := 256

/-- Constant `EncryptionService.IV_LENGTH = 12` (bytes). -/
def IV_LENGTH : Nat := 12

/-- Constant `EncryptionService.SALT_LENGTH = 16` (bytes). -/
def SALT_LENGTH : Nat := 16

/-- Constant `EncryptionService.PBKDF2_ITERATIONS = 100000`. -/
def PBKDF2_ITERATIONS : Nat := 100000

/-- Constant `EncryptionService.TAG_LENGTH = 128` (bits). -/
def TAG_LENGTH : Nat := 128

/-- The password-based key-derivation collaborator
(`crypto.subtle.importKey` + `crypto.subtle.deriveKey` with PBKDF2):
arguments are password, salt, iteration count, hash name, and derived key
length in bits; `none` models the primitive throwing. -/
abbrev KDF := String → Bytes → Nat → String → Nat → Option Key

/-- The authenticated-encryption collaborator (`crypto.subtle.encrypt` with
AES-GCM): arguments are key, iv, tag length in bits, and plaintext; returns
ciphertext with trailing tag, or `none` if the primitive throws. -/
abbrev AeadSeal := Key → Bytes → Nat → Bytes → Option Bytes

/-- The authenticated-decryption collaborator (`crypto.subtle.decrypt` with
AES-GCM): arguments are key, iv, tag length in bits, and
ciphertext-with-tag; returns the plaintext, or `none` when the integrity
check fails or the primitive throws. -/
abbrev AeadOpen := Key → Bytes → Nat → Bytes → Option Bytes

/-- Model of `crypto.getRandomValues(new Uint8Array(n))`, modelled over an explicit
random byte stream and a cursor: reads `n` bytes starting at `cursor`. -/
def getRandomValues (stream : Nat → Nat) (cursor n : Nat) : Bytes :=
  (List.range n).map (fun i => stream (cursor + i) % 256)

/-- Method `EncryptionService.deriveKey`: invokes the PBKDF2 collaborator with the
fixed parameters `PBKDF2_ITERATIONS`, hash `"SHA-256"`, and `KEY_LENGTH`;
wraps a collaborator failure as `EncryptionError` / `KEY_DERIVATION_FAILED`. -/
def deriveKey (kdf : KDF) (password : String) (salt : Bytes) :
    Except ZKFileError Key :=
  match kdf password salt PBKDF2_ITERATIONS "SHA-256" KEY_LENGTH with
  | some key => .ok key
  | none => .error (encryptionError "Failed to derive key: Unknown error"
      "KEY_DERIVATION_FAILED")

/-- Body of `EncryptionService.encryptFile` after the two random draws:
derive the key from password and salt, seal the file data under that key
and the iv; any failure inside the try block surfaces as
`EncryptionError` / `ENCRYPTION_FAILED`. -/
def encryptWithParams (kdf : KDF) (sealAead : AeadSeal) (iv salt : Bytes)
    (fileData : Bytes) (password : String) :
    Except ZKFileError EncryptedFile :=
  match deriveKey kdf password salt with
  | .error e => .error (encryptionError ("Failed to encrypt file: " ++ e.message)
      "ENCRYPTION_FAILED")
  | .ok key =>
    match sealAead key iv TAG_LENGTH fileData with
    | some encryptedData =>
        .ok { iv := iv, salt := salt, ciphertext := encryptedData }
    | none => .error (encryptionError "Failed to encrypt file: Unknown error"
        "ENCRYPTION_FAILED")

/-- Method `EncryptionService.encryptFile`: draws a fresh iv (12 bytes) and salt
(16 bytes) from the random source, then encrypts. -/
def encryptFile (stream : Nat → Nat) (cursor : Nat) (kdf : KDF)
    (sealAead : AeadSeal) (fileData : Bytes) (password : String) :
    Except ZKFileError EncryptedFile :=
  let iv := getRandomValues stream cursor IV_LENGTH
  let salt := getRandomValues stream (cursor + IV_LENGTH) SALT_LENGTH
  encryptWithParams kdf sealAead iv salt fileData password

/-- Method `EncryptionService.decryptFile`: re-derives the key from the password
and the container's salt, then opens the ciphertext with the container's
iv; any failure inside the try block — including a KDF failure — surfaces
as `EncryptionError` / `DECRYPTION_FAILED`. -/
def decryptFile (kdf : KDF) (openAead : AeadOpen)
    (encryptedFile : EncryptedFile) (password : String) :
    Except ZKFileError Bytes :=
  match deriveKey kdf password encryptedFile.salt with
  | .error e => .error (encryptionError ("Failed to decrypt file: " ++ e.message)
      "DECRYPTION_FAILED")
  | .ok key =>
    match openAead key encryptedFile.iv TAG_LENGTH encryptedFile.ciphertext with
    | some decryptedData => .ok decryptedData
    | none => .error (encryptionError
        "Failed to decrypt file: Invalid password or corrupted data"
        "DECRYPTION_FAILED")

/-- Method `EncryptionService.combineEncryptedParts`: serialize as
`iv || salt || ciphertext` (the source allocates the exact total length and
copies the three parts at offsets `0`, `iv.length`,
`iv.length + salt.length`). -/
def combineEncryptedParts (encryptedFile : EncryptedFile) : Bytes :=
  encryptedFile.iv ++ encryptedFile.salt ++ encryptedFile.ciphertext

/-- The error thrown by `splitEncryptedParts` on a short buffer; the spec's
taxonomy calls this failure kind `MalformedContainer` (it is an
`EncryptionError` with code `INVALID_ENCRYPTED_DATA` in the source). -/
def malformedContainerError : ZKFileError :=
  encryptionError "Invalid encrypted data: too short" "INVALID_ENCRYPTED_DATA"

/-- Method `EncryptionService.splitEncryptedParts`: rejects buffers shorter than
`IV_LENGTH + SALT_LENGTH = 28` bytes, otherwise slices at offsets 0, 12,
28 into iv, salt, and ciphertext. -/
def splitEncryptedParts (combinedData : Bytes) :
    Except ZKFileError EncryptedFile :=
  if combinedData.length < IV_LENGTH + SALT_LENGTH then
    .error malformedContainerError
  else
    .ok { iv := combinedData.take IV_LENGTH
        , salt := (combinedData.drop IV_LENGTH).take SALT_LENGTH
        , ciphertext := combinedData.drop (IV_LENGTH + SALT_LENGTH) }

end EncryptionService

namespace ZKFileClient

open EncryptionService

/-- Record `UploadOptions` (`src/types/index.ts`): the file is modelled as
`Option Bytes` so the JavaScript-level falsy check `!options.file` in
`validateUploadOptions` is representable (`none` = absent/undefined);
`wallet` is `Option` of its nullable `publicKey` field, because the code
checks `!options.wallet || !options.wallet.publicKey`. -/
structure UploadOptions where
  file : Option Bytes
  password : String
  wallet : Option (Option String)
deriving DecidableEq, Repr

/-- Record `DownloadOptions` (`src/types/index.ts`): `fileId` is a plain string
(the falsy check `!options.fileId` fires exactly on the empty string). -/
structure DownloadOptions where
  fileId : String
  password : String
  wallet : Option (Option String)
deriving DecidableEq, Repr

/-- Method `ZKFileClient.validateUploadOptions`: checks file, then password, then
wallet, throwing `ValidationError` with the corresponding code.  A falsy
string is exactly the empty string. -/
def validateUploadOptions (options : UploadOptions) :
    Except ZKFileError Unit :=
  match options.file with
  | none => .error (validationError "File is required" "MISSING_FILE")
  | some _ =>
    if options.password = "" then
      .error (validationError "Password is required" "MISSING_PASSWORD")
    else
      match options.wallet with
      | some (some _) => .ok ()
      | _ => .error (validationError "Wallet is required" "MISSING_WALLET")

/-- Method `ZKFileClient.validateDownloadOptions`: checks fileId, then password,
then wallet, throwing `ValidationError` with the corresponding code. -/
def validateDownloadOptions (options : DownloadOptions) :
    Except ZKFileError Unit :=
  if options.fileId = "" then
    .error (validationError "File ID is required" "MISSING_FILE_ID")
  else if options.password = "" then
    .error (validationError "Password is required" "MISSING_PASSWORD")
  else
    match options.wallet with
    | some (some _) => .ok ()
    | _ => .error (validationError "Wallet is required" "MISSING_WALLET")

/-- Method `ZKFileClient.generateFileId`: prefixes the first 16 characters of the
CID with "zkf_". -/
def generateFileId (cid : String) : String :=
  "zkf_" ++ cid.take 16

/-- Method `ZKFileClient.extractCIDFromFileId`, i.e. removing the first occurrence of the prefix:
which removes the first occurrence of "zkf_". -/
def extractCIDFromFileId (fileId : String) : String :=
  match fileId.splitOn "zkf_" with
  | [] => fileId
  | [s] => s
  | a :: b :: rest => String.intercalate "zkf_" ((a ++ b) :: rest)

/-- Method `ZKFileClient.upload`, restricted to the steps inside this repository:
validate, encrypt, combine, hand the blob to the storage collaborator
(`storageUpload` returns the CID), and build the file id.  The on-chain
step and metadata assembly are orchestration outside the codec.  The
`none` file branch is unreachable after validation succeeds. -/
def upload (options : UploadOptions) (stream : Nat → Nat) (cursor : Nat)
    (kdf : KDF) (sealAead : AeadSeal) (storageUpload : Bytes → String) :
    Except ZKFileError (String × String) :=
  match validateUploadOptions options with
  | .error e => .error e
  | .ok _ =>
    match options.file with
    | none => .error (validationError "File is required" "MISSING_FILE")
    | some fileData =>
      match encryptFile stream cursor kdf sealAead fileData options.password with
      | .error e => .error e
      | .ok encryptedFile =>
        let combinedData := combineEncryptedParts encryptedFile
        let cid := storageUpload combinedData
        .ok (generateFileId cid, cid)

/-- Method `ZKFileClient.download`, restricted to the steps inside this
repository: validate, resolve the CID, fetch the blob from the storage
collaborator, split it, and decrypt. -/
def download (options : DownloadOptions) (storageDownload : String → Bytes)
    (kdf : KDF) (openAead : AeadOpen) : Except ZKFileError Bytes :=
  match validateDownloadOptions options with
  | .error e => .error e
  | .ok _ =>
    let cid := extractCIDFromFileId options.fileId
    let encryptedData := storageDownload cid
    match splitEncryptedParts encryptedData with
    | .error e => .error e
    | .ok encryptedFile =>
      decryptFile kdf openAead encryptedFile options.password

end ZKFileClient

/-! ## Concrete collaborator instances

Toy stand-ins for PBKDF2 and AES-GCM with the same interfaces; used only
to instantiate theorems whose hypotheses quantify over the external
collaborators. -/

/-- A toy KDF: the derived key is the salt followed by the password's
code points (injective in the password for a fixed salt). -/
def kdfToy : EncryptionService.KDF := fun password salt _ _ _ =>
  some (salt ++ (password.toList.map Char.toNat))

/-- A toy KDF that agrees with `kdfToy` at 100000 iterations and fails at
every other iteration count. -/
def kdfToyAt100000 : EncryptionService.KDF :=
  fun password salt iterations hash keyLength =>
    if iterations = 100000 then kdfToy password salt iterations hash keyLength
    else none

/-- A KDF collaborator that always fails. -/
def kdfNone : EncryptionService.KDF := fun _ _ _ _ _ => none

/-- A toy seal: ciphertext is the plaintext followed by the key and the iv
(the trailing `key ++ iv` plays the role of the tag). -/
def sealToy : EncryptionService.AeadSeal := fun key iv _ plaintext =>
  some (plaintext ++ key ++ iv)

/-- The toy open: accepts exactly when the trailing bytes equal
`key ++ iv`, returning the leading bytes as plaintext. -/
def openToy : EncryptionService.AeadOpen := fun key iv _ c =>
  if key.length + iv.length ≤ c.length ∧
      c.drop (c.length - (key.length + iv.length)) = key ++ iv then
    some (c.take (c.length - (key.length + iv.length)))
  else none

/-- An open collaborator that always fails. -/
def openNone : EncryptionService.AeadOpen := fun _ _ _ _ => none

/-! ## Shared helper lemmas -/

namespace EncryptionService

/-- Lemma: `deriveKey` succeeds with a given key exactly when the PBKDF2
collaborator, invoked at the fixed parameters, returns that key. -/
theorem deriveKey_ok_iff {kdf : KDF} {password : String} {salt : Bytes}
    {key : Key} :
    deriveKey kdf password salt = .ok key ↔
      kdf password salt PBKDF2_ITERATIONS "SHA-256" KEY_LENGTH = some key := by
  unfold deriveKey
  cases h : kdf password salt PBKDF2_ITERATIONS "SHA-256" KEY_LENGTH with
  | none => simp
  | some k => simp

/-- Lemma: `deriveKey` fails exactly when the PBKDF2 collaborator returns nothing,
and then the error carries code `KEY_DERIVATION_FAILED`. -/
theorem deriveKey_error_iff {kdf : KDF} {password : String} {salt : Bytes}
    {e : ZKFileError} :
    deriveKey kdf password salt = .error e ↔
      (kdf password salt PBKDF2_ITERATIONS "SHA-256" KEY_LENGTH = none ∧
        e = encryptionError "Failed to derive key: Unknown error"
          "KEY_DERIVATION_FAILED") := by
  unfold deriveKey
  cases h : kdf password salt PBKDF2_ITERATIONS "SHA-256" KEY_LENGTH with
  | none => simp [eq_comm]
  | some k => simp

/-- Eliminator for a successful `encryptFile` run: it exposes the derived
key, the sealed ciphertext, and the fact that the container holds exactly
the iv and salt drawn from the random source. -/
theorem encryptFile_ok_elim {stream : Nat → Nat} {cursor : Nat} {kdf : KDF}
    {sealAead : AeadSeal} {fileData : Bytes} {password : String}
    {ef : EncryptedFile}
    (henc : encryptFile stream cursor kdf sealAead fileData password = .ok ef) :
    ∃ key ct,
      kdf password (getRandomValues stream (cursor + IV_LENGTH) SALT_LENGTH)
        PBKDF2_ITERATIONS "SHA-256" KEY_LENGTH = some key ∧
      sealAead key (getRandomValues stream cursor IV_LENGTH) TAG_LENGTH
        fileData = some ct ∧
      ef = { iv := getRandomValues stream cursor IV_LENGTH
           , salt := getRandomValues stream (cursor + IV_LENGTH) SALT_LENGTH
           , ciphertext := ct } := by
  simp only [encryptFile, encryptWithParams] at henc
  split at henc
  · exact absurd henc (by simp)
  next key hd =>
    split at henc
    next ct hs =>
      simp only [Except.ok.injEq] at henc
      exact ⟨key, ct, deriveKey_ok_iff.mp hd, hs, henc.symm⟩
    next hs => exact absurd henc (by simp)

/-- When key derivation succeeds, `decryptFile` reduces to the outcome of
the authenticated-open collaborator on the container's iv and ciphertext. -/
theorem decryptFile_eq_of {kdf : KDF} {openAead : AeadOpen}
    {ef : EncryptedFile} {password : String} (key : Key)
    (hd : deriveKey kdf password ef.salt = .ok key) :
    decryptFile kdf openAead ef password =
      match openAead key ef.iv TAG_LENGTH ef.ciphertext with
      | some decryptedData => .ok decryptedData
      | none => .error (encryptionError
          "Failed to decrypt file: Invalid password or corrupted data"
          "DECRYPTION_FAILED") := by
  unfold decryptFile
  rw [hd]

/-- When the KDF collaborator fails on the decrypt path, `decryptFile`
reports `DECRYPTION_FAILED` (the inner `KEY_DERIVATION_FAILED` error is
caught and re-wrapped by the decrypt catch block). -/
theorem decryptFile_kdf_none {kdf : KDF} {openAead : AeadOpen}
    {ef : EncryptedFile} {password : String}
    (h : kdf password ef.salt PBKDF2_ITERATIONS "SHA-256" KEY_LENGTH = none) :
    decryptFile kdf openAead ef password =
      .error (encryptionError
        ("Failed to decrypt file: " ++ "Failed to derive key: Unknown error")
        "DECRYPTION_FAILED") := by
  unfold decryptFile
  rw [deriveKey_error_iff.mpr ⟨h, rfl⟩]
  rfl

/-- When the authenticated open fails, `decryptFile` reports
`DECRYPTION_FAILED`. -/
theorem decryptFile_open_none {kdf : KDF} {openAead : AeadOpen}
    {ef : EncryptedFile} {password : String} {key : Key}
    (hd : kdf password ef.salt PBKDF2_ITERATIONS "SHA-256" KEY_LENGTH =
      some key)
    (ho : openAead key ef.iv TAG_LENGTH ef.ciphertext = none) :
    decryptFile kdf openAead ef password =
      .error (encryptionError
        "Failed to decrypt file: Invalid password or corrupted data"
        "DECRYPTION_FAILED") := by
  rw [decryptFile_eq_of key (deriveKey_ok_iff.mpr hd), ho]

/-- The serialization determines the iv and the salt once their lengths are
fixed: equal serializations of containers with equal-length ivs and
equal-length salts have equal ivs and equal salts. -/
theorem combine_determines_iv_salt {ef1 ef2 : EncryptedFile}
    (hiv : ef1.iv.length = ef2.iv.length)
    (hsalt : ef1.salt.length = ef2.salt.length)
    (hc : combineEncryptedParts ef1 = combineEncryptedParts ef2) :
    ef1.iv = ef2.iv ∧ ef1.salt = ef2.salt := by
  unfold combineEncryptedParts at hc
  rw [List.append_assoc, List.append_assoc] at hc
  have hivEq : ef1.iv = ef2.iv := by
    have h := congrArg (List.take ef1.iv.length) hc
    rwa [List.take_left, List.take_left' hiv.symm] at h
  have hrest := congrArg (List.drop ef1.iv.length) hc
  rw [List.drop_left, List.drop_left' hiv.symm] at hrest
  have hsaltEq : ef1.salt = ef2.salt := by
    have h := congrArg (List.take ef1.salt.length) hrest
    rwa [List.take_left, List.take_left' hsalt.symm] at h
  exact ⟨hivEq, hsaltEq⟩

end EncryptionService

/-! ## Claim theorems -/

open EncryptionService ZKFileClient

/-- C2: for every byte buffer of length at least 28, deserializing and then
serializing yields the identical buffer byte for byte, independently of
whether the buffer is cryptographically valid (no cryptographic
collaborator is even consulted). -/
theorem combine_split_roundTrip (combinedData : Bytes)
    (h : 28 ≤ combinedData.length) :
    ∃ ef, splitEncryptedParts combinedData = .ok ef ∧
      combineEncryptedParts ef = combinedData := by
  unfold splitEncryptedParts
  rw [if_neg (by simp only [IV_LENGTH, SALT_LENGTH]; omega)]
  refine ⟨_, rfl, ?_⟩
  unfold combineEncryptedParts
  simp only
  rw [← List.drop_drop, List.append_assoc, List.take_append_drop,
    List.take_append_drop]

/-- Witness for C2 at a concrete 28-byte buffer. -/
theorem combine_split_roundTrip_witness :
    ∃ ef, splitEncryptedParts (List.replicate 28 7) = .ok ef ∧
      combineEncryptedParts ef = List.replicate 28 7 :=
  combine_split_roundTrip (List.replicate 28 7) (by decide)

/-- C3: deserialization fails with the `MalformedContainer` error exactly
when the buffer is shorter than 28 bytes (and `splitEncryptedParts`
consults no cryptographic collaborator, so the failure precedes any
cryptographic operation); a buffer of length exactly 28 deserializes
successfully into a container with empty ciphertext. -/
theorem split_malformed_iff (combinedData : Bytes) :
    (splitEncryptedParts combinedData = .error malformedContainerError ↔
      combinedData.length < 28) ∧
    (combinedData.length = 28 →
      ∃ ef, splitEncryptedParts combinedData = .ok ef ∧
        ef.ciphertext = []) := by
  constructor
  · constructor
    · intro h
      by_contra hlen
      unfold splitEncryptedParts at h
      rw [if_neg (by simp only [IV_LENGTH, SALT_LENGTH]; omega)] at h
      simp at h
    · intro h
      unfold splitEncryptedParts
      rw [if_pos (by simp only [IV_LENGTH, SALT_LENGTH]; omega)]
  · intro h
    unfold splitEncryptedParts
    rw [if_neg (by simp only [IV_LENGTH, SALT_LENGTH]; omega)]
    refine ⟨_, rfl, ?_⟩
    simp only
    exact List.drop_eq_nil_of_le (by simp only [IV_LENGTH, SALT_LENGTH]; omega)

/-- Witness for C3: a 3-byte buffer is rejected as malformed, and a
28-byte buffer parses with empty ciphertext. -/
theorem split_malformed_iff_witness :
    splitEncryptedParts [0, 1, 2] = .error malformedContainerError ∧
    ∃ ef, splitEncryptedParts (List.replicate 28 1) = .ok ef ∧
      ef.ciphertext = [] :=
  ⟨(split_malformed_iff [0, 1, 2]).1.2 (by decide),
   (split_malformed_iff (List.replicate 28 1)).2 (by decide)⟩

/-- C4: for every buffer of length at least 28, deserialization succeeds —
regardless of the bytes' values, so no authenticity validation happens —
and returns a container whose iv is bytes [0, 12), whose salt is bytes
[12, 28), and whose ciphertext is every byte from offset 28 to the end. -/
theorem split_offsets (combinedData : Bytes) (h : 28 ≤ combinedData.length) :
    ∃ ef, splitEncryptedParts combinedData = .ok ef ∧
      ef.iv.length = 12 ∧ ef.salt.length = 16 ∧
      ef.ciphertext.length = combinedData.length - 28 ∧
      (∀ i, i < 12 → ef.iv[i]? = combinedData[i]?) ∧
      (∀ i, i < 16 → ef.salt[i]? = combinedData[12 + i]?) ∧
      (∀ i, ef.ciphertext[i]? = combinedData[28 + i]?) := by
  unfold splitEncryptedParts
  rw [if_neg (by simp only [IV_LENGTH, SALT_LENGTH]; omega)]
  refine ⟨_, rfl, ?_, ?_, ?_, ?_, ?_, ?_⟩ <;>
    simp only [IV_LENGTH, SALT_LENGTH]
  · simp only [List.length_take]
    omega
  · simp only [List.length_take, List.length_drop]
    omega
  · simp only [List.length_drop]
  · intro i hi
    rw [List.getElem?_take_of_lt hi]
  · intro i hi
    rw [List.getElem?_take_of_lt hi, List.getElem?_drop]
  · intro i
    rw [List.getElem?_drop]

/-- The toy pair is a correct seal/open pair: opening a sealed message
with the same key and iv recovers the plaintext. -/
theorem openToy_sealToy {key iv pt ct : List Nat} {t : Nat}
    (h : sealToy key iv t pt = some ct) : openToy key iv t ct = some pt := by
  simp only [sealToy, Option.some.injEq] at h
  subst h
  have hlen : (pt ++ key ++ iv).length - (key.length + iv.length) =
      pt.length := by simp
  have hle : key.length + iv.length ≤ (pt ++ key ++ iv).length := by simp
  have hdrop : (pt ++ key ++ iv).drop pt.length = key ++ iv := by
    rw [List.append_assoc]
    exact List.drop_left pt (key ++ iv)
  have htake : (pt ++ key ++ iv).take pt.length = pt := by
    rw [List.append_assoc]
    exact List.take_left pt (key ++ iv)
  unfold openToy
  rw [if_pos ⟨hle, by rw [hlen]; exact hdrop⟩, hlen, htake]

/-- The toy pair rejects a mismatched key of the same length: opening with
a different key of equal length fails. -/
theorem openToy_rejects_wrong_key {key key' iv pt ct : List Nat} {t : Nat}
    (hlen : key.length = key'.length) (hne : key ≠ key')
    (h : sealToy key iv t pt = some ct) : openToy key' iv t ct = none := by
  simp only [sealToy, Option.some.injEq] at h
  subst h
  have hlen' : (pt ++ key ++ iv).length - (key'.length + iv.length) =
      pt.length := by simp; omega
  have hdrop : (pt ++ key ++ iv).drop pt.length = key ++ iv := by
    rw [List.append_assoc]
    exact List.drop_left pt (key ++ iv)
  have hcond : ¬(key'.length + iv.length ≤ (pt ++ key ++ iv).length ∧
      (pt ++ key ++ iv).drop pt.length = key' ++ iv) := by
    rintro ⟨-, hbad⟩
    rw [hdrop] at hbad
    exact hne (List.append_cancel_right hbad)
  unfold openToy
  rw [hlen', if_neg hcond]

/-- C1: decrypting the container produced by `encryptFile` with the same
password returns exactly the plaintext, assuming the underlying AEAD
seal/open pair is correct (opening a sealed message under the same key and
iv recovers the message). -/
theorem decrypt_encrypt_roundTrip (stream : Nat → Nat) (cursor : Nat)
    (kdf : KDF) (sealAead : AeadSeal) (openAead : AeadOpen)
    (plaintext : Bytes) (password : String) (ef : EncryptedFile)
    (haead : ∀ key iv pt ct, sealAead key iv TAG_LENGTH pt = some ct →
      openAead key iv TAG_LENGTH ct = some pt)
    (henc : encryptFile stream cursor kdf sealAead plaintext password =
      .ok ef) :
    decryptFile kdf openAead ef password = .ok plaintext := by
  obtain ⟨key, ct, hk, hs, hef⟩ := encryptFile_ok_elim henc
  have hiv : ef.iv = getRandomValues stream cursor IV_LENGTH := by rw [hef]
  have hsalt : ef.salt =
      getRandomValues stream (cursor + IV_LENGTH) SALT_LENGTH := by rw [hef]
  have hct : ef.ciphertext = ct := by rw [hef]
  rw [decryptFile_eq_of key
    (deriveKey_ok_iff.mpr (by rw [hsalt]; exact hk)),
    hiv, hct, haead _ _ _ _ hs]

/-- Witness for C1: a concrete round trip through the toy collaborators. -/
theorem decrypt_encrypt_roundTrip_witness :
    ∃ ef, encryptFile (fun i => i) 0 kdfToy sealToy [104, 105] "pw" =
        .ok ef ∧
      decryptFile kdfToy openToy ef "pw" = .ok [104, 105] := by
  refine ⟨_, rfl, ?_⟩
  exact decrypt_encrypt_roundTrip (fun i => i) 0 kdfToy sealToy openToy
    [104, 105] "pw" _ (fun _ _ _ _ h => openToy_sealToy h) rfl

/-- C5: decrypting a container produced under password `w1` with a
different password `w2` reports `DECRYPTION_FAILED`, assuming key
derivation distinguishes the two passwords on the container's salt and
the AEAD primitive rejects mismatched (equal-length) keys. -/
theorem decrypt_wrong_password_fails (stream : Nat → Nat) (cursor : Nat)
    (kdf : KDF) (sealAead : AeadSeal) (openAead : AeadOpen)
    (plaintext : Bytes) (w1 w2 : String) (ef : EncryptedFile)
    (_hpw : w1 ≠ w2)
    (henc : encryptFile stream cursor kdf sealAead plaintext w1 = .ok ef)
    (hkeys : ∀ k1 k2,
      kdf w1 ef.salt PBKDF2_ITERATIONS "SHA-256" KEY_LENGTH = some k1 →
      kdf w2 ef.salt PBKDF2_ITERATIONS "SHA-256" KEY_LENGTH = some k2 →
      k1.length = k2.length ∧ k1 ≠ k2)
    (haead : ∀ key key' iv pt ct, key.length = key'.length → key ≠ key' →
      sealAead key iv TAG_LENGTH pt = some ct →
      openAead key' iv TAG_LENGTH ct = none) :
    ∃ e, decryptFile kdf openAead ef w2 = .error e ∧
      e.code = "DECRYPTION_FAILED" := by
  obtain ⟨k1, ct, hk1, hs, hef⟩ := encryptFile_ok_elim henc
  have hiv : ef.iv = getRandomValues stream cursor IV_LENGTH := by rw [hef]
  have hsalt : ef.salt =
      getRandomValues stream (cursor + IV_LENGTH) SALT_LENGTH := by rw [hef]
  have hct : ef.ciphertext = ct := by rw [hef]
  have hk1' : kdf w1 ef.salt PBKDF2_ITERATIONS "SHA-256" KEY_LENGTH =
      some k1 := by rw [hsalt]; exact hk1
  cases hk2 : kdf w2 ef.salt PBKDF2_ITERATIONS "SHA-256" KEY_LENGTH with
  | none => exact ⟨_, decryptFile_kdf_none hk2, rfl⟩
  | some k2 =>
    obtain ⟨hlen, hne⟩ := hkeys k1 k2 hk1' hk2
    have ho : openAead k2 ef.iv TAG_LENGTH ef.ciphertext = none := by
      rw [hiv, hct]
      exact haead k1 k2 _ _ _ hlen hne hs
    exact ⟨_, decryptFile_open_none hk2 ho, rfl⟩

/-- Witness for C5: encrypting under "a" and decrypting under "b" with the
toy collaborators fails with `DECRYPTION_FAILED`. -/
theorem decrypt_wrong_password_fails_witness :
    ∃ ef e, encryptFile (fun i => i) 0 kdfToy sealToy [1, 2, 3] "a" =
        .ok ef ∧
      decryptFile kdfToy openToy ef "b" = .error e ∧
      e.code = "DECRYPTION_FAILED" := by
  obtain ⟨e, he, hcode⟩ := decrypt_wrong_password_fails (fun i => i) 0
    kdfToy sealToy openToy [1, 2, 3] "a" "b" _ (by decide) rfl
    (by
      intro k1 k2 h1 h2
      simp only [kdfToy, Option.some.injEq] at h1 h2
      subst h1
      subst h2
      exact ⟨by decide, by decide⟩)
    (fun _ _ _ _ _ hl hn hs => openToy_rejects_wrong_key hl hn hs)
  exact ⟨_, e, rfl, he, hcode⟩

/-- C6: the key-derivation parameters are identical and fixed on both
paths: the literal constants equal 100000 iterations and a 256-bit key,
and `deriveKey`, `encryptFile` and `decryptFile` depend on the KDF
collaborator only through its value at iteration count 100000, hash
"SHA-256", and key length 256 — so the same `(password, salt)` pair feeds
the KDF identically on the encrypt and decrypt paths. -/
theorem kdf_params_fixed :
    PBKDF2_ITERATIONS = 100000 ∧ KEY_LENGTH = 256 ∧
    ∀ kdf1 kdf2 : KDF,
      (∀ password salt,
        kdf1 password salt 100000 "SHA-256" 256 =
        kdf2 password salt 100000 "SHA-256" 256) →
      (∀ password salt,
        deriveKey kdf1 password salt = deriveKey kdf2 password salt) ∧
      (∀ stream cursor sealAead fileData password,
        encryptFile stream cursor kdf1 sealAead fileData password =
        encryptFile stream cursor kdf2 sealAead fileData password) ∧
      (∀ openAead ef password,
        decryptFile kdf1 openAead ef password =
        decryptFile kdf2 openAead ef password) := by
  refine ⟨rfl, rfl, ?_⟩
  intro kdf1 kdf2 hagree
  have hderive : ∀ password salt,
      deriveKey kdf1 password salt = deriveKey kdf2 password salt := by
    intro password salt
    unfold deriveKey
    rw [show PBKDF2_ITERATIONS = 100000 from rfl,
      show KEY_LENGTH = 256 from rfl, hagree password salt]
  refine ⟨hderive, ?_, ?_⟩
  · intro stream cursor sealAead fileData password
    simp only [encryptFile, encryptWithParams, hderive]
  · intro openAead ef password
    simp only [decryptFile, hderive]

/-- Witness for C6: two KDFs that agree at the fixed parameters (one of
them failing at every other iteration count) yield identical encryption
results. -/
theorem kdf_params_fixed_witness :
    encryptFile (fun i => i) 0 kdfToy sealToy [9, 9] "pw" =
      encryptFile (fun i => i) 0 kdfToyAt100000 sealToy [9, 9] "pw" :=
  (kdf_params_fixed.2.2 kdfToy kdfToyAt100000
      (fun password salt => by simp [kdfToyAt100000])).2.1
    (fun i => i) 0 sealToy [9, 9] "pw"

/-- C7: every failure of the codec carries the class name and a code that
together distinguish the three kinds: the encrypt path always fails with
`ENCRYPTION_FAILED`, the decrypt path with `DECRYPTION_FAILED`, and
deserialization with `INVALID_ENCRYPTED_DATA` (the spec's
`MalformedContainer`), and the three codes are pairwise distinct. -/
theorem error_codes_distinct :
    (∀ stream cursor kdf sealAead fileData password e,
      encryptFile stream cursor kdf sealAead fileData password = .error e →
      e.name = "EncryptionError" ∧ e.code = "ENCRYPTION_FAILED") ∧
    (∀ kdf openAead ef password e,
      decryptFile kdf openAead ef password = .error e →
      e.name = "EncryptionError" ∧ e.code = "DECRYPTION_FAILED") ∧
    (∀ combinedData e, splitEncryptedParts combinedData = .error e →
      e.name = "EncryptionError" ∧ e.code = "INVALID_ENCRYPTED_DATA") ∧
    ("ENCRYPTION_FAILED" : String) ≠ "DECRYPTION_FAILED" ∧
    ("ENCRYPTION_FAILED" : String) ≠ "INVALID_ENCRYPTED_DATA" ∧
    ("DECRYPTION_FAILED" : String) ≠ "INVALID_ENCRYPTED_DATA" := by
  refine ⟨?_, ?_, ?_, by decide, by decide, by decide⟩
  · intro stream cursor kdf sealAead fileData password e henc
    simp only [encryptFile, encryptWithParams] at henc
    split at henc
    · simp only [Except.error.injEq] at henc
      subst henc
      exact ⟨rfl, rfl⟩
    · split at henc
      · exact absurd henc (by simp)
      · simp only [Except.error.injEq] at henc
        subst henc
        exact ⟨rfl, rfl⟩
  · intro kdf openAead ef password e hdec
    simp only [decryptFile] at hdec
    split at hdec
    · simp only [Except.error.injEq] at hdec
      subst hdec
      exact ⟨rfl, rfl⟩
    · split at hdec
      · exact absurd hdec (by simp)
      · simp only [Except.error.injEq] at hdec
        subst hdec
        exact ⟨rfl, rfl⟩
  · intro combinedData e hsplit
    unfold splitEncryptedParts at hsplit
    split at hsplit
    · simp only [Except.error.injEq] at hsplit
      subst hsplit
      exact ⟨rfl, rfl⟩
    · exact absurd hsplit (by simp)

/-- Witness for C7: concrete failing runs of all three operations produce
the three distinct codes. -/
theorem error_codes_distinct_witness :
    ((encryptionError
        ("Failed to encrypt file: " ++ "Failed to derive key: Unknown error")
        "ENCRYPTION_FAILED").name = "EncryptionError" ∧
      (encryptionError
        ("Failed to encrypt file: " ++ "Failed to derive key: Unknown error")
        "ENCRYPTION_FAILED").code = "ENCRYPTION_FAILED") ∧
    ((encryptionError
        "Failed to decrypt file: Invalid password or corrupted data"
        "DECRYPTION_FAILED").name = "EncryptionError" ∧
      (encryptionError
        "Failed to decrypt file: Invalid password or corrupted data"
        "DECRYPTION_FAILED").code = "DECRYPTION_FAILED") ∧
    (malformedContainerError.name = "EncryptionError" ∧
      malformedContainerError.code = "INVALID_ENCRYPTED_DATA") :=
  ⟨error_codes_distinct.1 (fun i => i) 0 kdfNone sealToy [] "pw" _ rfl,
   error_codes_distinct.2.1 kdfToy openNone
     { iv := [], salt := [], ciphertext := [] } "pw" _ rfl,
   error_codes_distinct.2.2.1 [] _ rfl⟩

/-- C8: a successful `encryptFile` call uses an iv of exactly 12 bytes and
a salt of exactly 16 bytes, both read verbatim from the random source (the
iv at the cursor, the salt right after it); and the iv and salt do not
depend on any caller-supplied data — a second call with different
plaintext and password at the same random-source state yields the same iv
and salt, so they cannot be caller-supplied. -/
theorem encrypt_fresh_random (stream : Nat → Nat) (cursor : Nat) (kdf : KDF)
    (sealAead : AeadSeal) (fileData : Bytes) (password : String)
    (ef : EncryptedFile)
    (henc : encryptFile stream cursor kdf sealAead fileData password =
      .ok ef) :
    ef.iv.length = 12 ∧ ef.salt.length = 16 ∧
    ef.iv = getRandomValues stream cursor IV_LENGTH ∧
    ef.salt = getRandomValues stream (cursor + IV_LENGTH) SALT_LENGTH ∧
    (∀ i, i < 12 → ef.iv[i]? = some (stream (cursor + i) % 256)) ∧
    (∀ i, i < 16 →
      ef.salt[i]? = some (stream (cursor + IV_LENGTH + i) % 256)) ∧
    ∀ fileData' password' ef',
      encryptFile stream cursor kdf sealAead fileData' password' = .ok ef' →
      ef'.iv = ef.iv ∧ ef'.salt = ef.salt := by
  obtain ⟨key, ct, hk, hs, hef⟩ := encryptFile_ok_elim henc
  have hiv : ef.iv = getRandomValues stream cursor IV_LENGTH := by rw [hef]
  have hsalt : ef.salt =
      getRandomValues stream (cursor + IV_LENGTH) SALT_LENGTH := by rw [hef]
  refine ⟨?_, ?_, hiv, hsalt, ?_, ?_, ?_⟩
  · rw [hiv]; simp [getRandomValues, IV_LENGTH]
  · rw [hsalt]; simp [getRandomValues, SALT_LENGTH]
  · intro i hilt
    rw [hiv]
    simp only [getRandomValues]
    rw [List.getElem?_map, List.getElem?_range (by simpa [IV_LENGTH] using hilt)]
    rfl
  · intro i hilt
    rw [hsalt]
    simp only [getRandomValues]
    rw [List.getElem?_map,
      List.getElem?_range (by simpa [SALT_LENGTH] using hilt)]
    rfl
  · intro fileData' password' ef' henc'
    obtain ⟨key', ct', hk', hs', hef'⟩ := encryptFile_ok_elim henc'
    constructor
    · rw [hiv, hef']
    · rw [hsalt, hef']

/-- Witness for C8 at a concrete run. -/
theorem encrypt_fresh_random_witness :
    ∃ ef, encryptFile (fun i => 3 * i) 5 kdfToy sealToy [42] "pw" =
        .ok ef ∧
      ef.iv.length = 12 ∧ ef.salt.length = 16 ∧
      ef.iv = getRandomValues (fun i => 3 * i) 5 IV_LENGTH ∧
      ef.salt = getRandomValues (fun i => 3 * i) (5 + IV_LENGTH)
        SALT_LENGTH := by
  refine ⟨_, rfl, ?_⟩
  obtain ⟨h1, h2, h3, h4, -⟩ := encrypt_fresh_random (fun i => 3 * i) 5
    kdfToy sealToy [42] "pw" _ rfl
  exact ⟨h1, h2, h3, h4⟩

/-- C9, as a two-run property with the random source explicit: for two
successful `encryptFile` calls with the same plaintext and password,
whenever the random source supplies distinct iv bytes (resp. distinct salt
bytes) to the two calls, the containers' ivs (resp. salts) differ and the
serialized outputs differ. -/
theorem encrypt_two_run_uniqueness (stream : Nat → Nat) (c1 c2 : Nat)
    (kdf : KDF) (sealAead : AeadSeal) (plaintext : Bytes) (password : String)
    (ef1 ef2 : EncryptedFile)
    (h1 : encryptFile stream c1 kdf sealAead plaintext password = .ok ef1)
    (h2 : encryptFile stream c2 kdf sealAead plaintext password = .ok ef2) :
    (getRandomValues stream c1 IV_LENGTH ≠
        getRandomValues stream c2 IV_LENGTH →
      ef1.iv ≠ ef2.iv ∧
      combineEncryptedParts ef1 ≠ combineEncryptedParts ef2) ∧
    (getRandomValues stream (c1 + IV_LENGTH) SALT_LENGTH ≠
        getRandomValues stream (c2 + IV_LENGTH) SALT_LENGTH →
      ef1.salt ≠ ef2.salt ∧
      combineEncryptedParts ef1 ≠ combineEncryptedParts ef2) := by
  obtain ⟨key1, ct1, hk1, hs1, hef1⟩ := encryptFile_ok_elim h1
  obtain ⟨key2, ct2, hk2, hs2, hef2⟩ := encryptFile_ok_elim h2
  have hiv1 : ef1.iv = getRandomValues stream c1 IV_LENGTH := by rw [hef1]
  have hiv2 : ef2.iv = getRandomValues stream c2 IV_LENGTH := by rw [hef2]
  have hsalt1 : ef1.salt =
      getRandomValues stream (c1 + IV_LENGTH) SALT_LENGTH := by rw [hef1]
  have hsalt2 : ef2.salt =
      getRandomValues stream (c2 + IV_LENGTH) SALT_LENGTH := by rw [hef2]
  have hivlen : ef1.iv.length = ef2.iv.length := by
    rw [hiv1, hiv2]; simp [getRandomValues]
  have hsaltlen : ef1.salt.length = ef2.salt.length := by
    rw [hsalt1, hsalt2]; simp [getRandomValues]
  constructor
  · intro hne
    have hivne : ef1.iv ≠ ef2.iv := by rw [hiv1, hiv2]; exact hne
    refine ⟨hivne, fun hc => ?_⟩
    exact hivne (combine_determines_iv_salt hivlen hsaltlen hc).1
  · intro hne
    have hsaltne : ef1.salt ≠ ef2.salt := by rw [hsalt1, hsalt2]; exact hne
    refine ⟨hsaltne, fun hc => ?_⟩
    exact hsaltne (combine_determines_iv_salt hivlen hsaltlen hc).2

/-- Witness for C9: two concrete runs at different cursor positions over
an injective stream produce different ivs, salts, and serializations. -/
theorem encrypt_two_run_uniqueness_witness :
    ∃ ef1 ef2,
      encryptFile (fun i => i) 0 kdfToy sealToy [7] "pw" = .ok ef1 ∧
      encryptFile (fun i => i) 100 kdfToy sealToy [7] "pw" = .ok ef2 ∧
      ef1.iv ≠ ef2.iv ∧ ef1.salt ≠ ef2.salt ∧
      combineEncryptedParts ef1 ≠ combineEncryptedParts ef2 := by
  refine ⟨_, _, rfl, rfl, ?_⟩
  obtain ⟨hivpart, hsaltpart⟩ := encrypt_two_run_uniqueness (fun i => i)
    0 100 kdfToy sealToy [7] "pw" _ _ rfl rfl
  obtain ⟨hiv, hcomb⟩ := hivpart (by decide)
  obtain ⟨hsalt, -⟩ := hsaltpart (by decide)
  exact ⟨hiv, hsalt, hcomb⟩

/-- C10 counterexample: a download call whose password is the empty string
but whose fileId is also empty fails with `MISSING_FILE_ID`, not
`MISSING_PASSWORD`, because the fileId falsy check runs first — so the
claim as stated (every such call fails with `MISSING_PASSWORD`) is false. -/
theorem empty_password_counterexample :
    download { fileId := "", password := "", wallet := some (some "w") }
        (fun _ => []) kdfNone openNone =
      .error (validationError "File ID is required" "MISSING_FILE_ID") ∧
    ("MISSING_FILE_ID" : String) ≠ "MISSING_PASSWORD" :=
  ⟨rfl, by decide⟩

/-- C10 (amended): for every upload call whose file is present and every
download call whose fileId is non-empty, an empty password makes the call
fail with `ValidationError` code `MISSING_PASSWORD`; the result is
independent of the encryption, key-derivation and storage collaborators,
so the failure precedes any encryption, key derivation, or storage
operation. -/
theorem empty_password_rejected :
    (∀ (options : UploadOptions) stream cursor kdf sealAead storageUpload,
      options.file ≠ none → options.password = "" →
      upload options stream cursor kdf sealAead storageUpload =
        .error (validationError "Password is required" "MISSING_PASSWORD")) ∧
    (∀ (options : DownloadOptions) storageDownload kdf openAead,
      options.fileId ≠ "" → options.password = "" →
      download options storageDownload kdf openAead =
        .error (validationError "Password is required" "MISSING_PASSWORD")) := by
  constructor
  · intro options stream cursor kdf sealAead storageUpload hfile hpw
    cases hfo : options.file with
    | none => exact absurd hfo hfile
    | some f => simp [upload, validateUploadOptions, hfo, hpw]
  · intro options storageDownload kdf openAead hfid hpw
    simp [download, validateDownloadOptions, hfid, hpw]

/-- Witness for the amended C10 at concrete upload and download calls. -/
theorem empty_password_rejected_witness :
    upload { file := some [1], password := "", wallet := some (some "w") }
        (fun i => i) 0 kdfToy sealToy (fun _ => "cid") =
      .error (validationError "Password is required" "MISSING_PASSWORD") ∧
    download { fileId := "zkf_x", password := "", wallet := some (some "w") }
        (fun _ => []) kdfToy openToy =
      .error (validationError "Password is required" "MISSING_PASSWORD") :=
  ⟨empty_password_rejected.1
      { file := some [1], password := "", wallet := some (some "w") }
      (fun i => i) 0 kdfToy sealToy (fun _ => "cid") (by decide) rfl,
   empty_password_rejected.2
      { fileId := "zkf_x", password := "", wallet := some (some "w") }
      (fun _ => []) kdfToy openToy (by decide) rfl⟩

/-- Witness for C4 at a concrete 30-byte buffer. -/
theorem split_offsets_witness :
    ∃ ef, splitEncryptedParts (List.range 30) = .ok ef ∧
      ef.iv.length = 12 ∧ ef.salt.length = 16 ∧
      ef.ciphertext.length = (List.range 30).length - 28 ∧
      (∀ i, i < 12 → ef.iv[i]? = (List.range 30)[i]?) ∧
      (∀ i, i < 16 → ef.salt[i]? = (List.range 30)[12 + i]?) ∧
      (∀ i, ef.ciphertext[i]? = (List.range 30)[28 + i]?) :=
  split_offsets (List.range 30) (by decide)

end ZKFile
